import Mathlib

/-
Verification development for the mcp-latitude-ai repository.

The definitions below are a shallow embedding of the TypeScript sources:
  - src/utils/error-handler.util.ts  (detectErrorType, createUserFriendlyErrorMessage)
  - src/utils/error.util.ts          (ErrorType, McpError and its constructors)
  - src/utils/config.util.ts         (ConfigLoader.load and its two file sources)
  - src/api.ts                       (getConfig, request, getPromptNames)
  - src/services/vendor.latitude.service.ts
                                     (getLatitudeCredentials, fetchLatitudeApi)

JavaScript strings are modelled as Lean String, JavaScript numbers that hold
HTTP status codes as Nat, and `undefined` as Option.  JavaScript truthiness
on strings (where the empty string is falsy) and on numbers (where 0 is
falsy) is modelled explicitly by the jsOr* helpers.  Network I/O is modelled
by an explicit FetchOutcome value handed to the pure response-handling part
of each client, and by an oracle function for end-to-end runs, so that the
number of outbound calls is an observable result.
-/

namespace LatitudeMcp

/-- Boolean prefix test on character lists (structural, kernel-evaluable). -/
def listIsPrefixOf : List Char → List Char → Bool
  | [], _ => true
  | _ :: _, [] => false
  | a :: as, b :: bs => a == b && listIsPrefixOf as bs

/-- Boolean infix test on character lists (structural, kernel-evaluable). -/
def listIsInfixOf (pat : List Char) (s : List Char) : Bool :=
  match s with
  | [] => listIsPrefixOf pat []
  | _ :: rest => listIsPrefixOf pat s || listIsInfixOf pat rest

/-- JavaScript `s.includes(pat)`. -/
def strIncludes (s pat : String) : Bool := listIsInfixOf pat.data s.data

/-- JavaScript `x || d` on an optional number, where 0 is falsy. -/
def jsOrNat (x : Option Nat) (d : Nat) : Nat :=
  match x with
  | none => d
  | some v => if v = 0 then d else v

/-- JavaScript `x || d` on an optional string, where the empty string is falsy. -/
def jsOrStr (x : Option String) (d : String) : String :=
  match x with
  | none => d
  | some s => if s = "" then d else s

/-- JavaScript truthiness of an optional string. -/
def jsTruthyOptStr : Option String → Bool
  | none => false
  | some s => s ≠ ""

-- ===========================================================================
-- src/utils/error-handler.util.ts
-- ===========================================================================

/-- The `ErrorCode` enum of src/utils/error-handler.util.ts. -/
inductive ErrorCode where
  | NOT_FOUND
  | INVALID_CURSOR
  | ACCESS_DENIED
  | VALIDATION_ERROR
  | UNEXPECTED_ERROR
  | NETWORK_ERROR
  | RATE_LIMIT_ERROR
deriving DecidableEq, Repr

/-- The network-failure message substrings tested by `detectErrorType`. -/
def hasNetworkPattern (m : String) : Bool :=
  strIncludes m "network error" || strIncludes m "fetch failed" ||
  strIncludes m "ECONNREFUSED" || strIncludes m "ENOTFOUND" ||
  strIncludes m "Failed to fetch" || strIncludes m "Network request failed"

/-- The rate-limiting message substrings tested by `detectErrorType`. -/
def hasRateLimitMsgPattern (m : String) : Bool :=
  strIncludes m "rate limit" || strIncludes m "too many requests"

/-- The not-found message substrings tested by `detectErrorType`. -/
def hasNotFoundMsgPattern (m : String) : Bool :=
  strIncludes m "not found" || strIncludes m "does not exist"

/-- The access-denied message substrings tested by `detectErrorType`. -/
def hasAccessMsgPattern (m : String) : Bool :=
  strIncludes m "access" || strIncludes m "permission" ||
  strIncludes m "authorize" || strIncludes m "authentication"

/-- The invalid-cursor message-substring combination tested by `detectErrorType`. -/
def hasCursorComboPattern (m : String) : Bool :=
  (strIncludes m "cursor" || strIncludes m "startAt" || strIncludes m "page") &&
  (strIncludes m "invalid" || strIncludes m "not valid")

/-- The validation message substrings tested by `detectErrorType`. -/
def hasValidationMsgPattern (m : String) : Bool :=
  strIncludes m "validation" || strIncludes m "invalid" || strIncludes m "required"

/-- True when the message matches none of the substring patterns of
`detectErrorType` (so classification can only come from the status code). -/
def matchesNoPattern (m : String) : Bool :=
  !(hasNetworkPattern m || hasRateLimitMsgPattern m || hasNotFoundMsgPattern m ||
    hasAccessMsgPattern m || hasCursorComboPattern m || hasValidationMsgPattern m)

/-- Result of `detectErrorType`: `{ code, statusCode }`. -/
structure DetectResult where
  code : ErrorCode
  statusCode : Nat
deriving DecidableEq, Repr

/-- `detectErrorType` of src/utils/error-handler.util.ts, as a function of the
error's message and its optional numeric `statusCode` property.  The if-chain
mirrors the source's branch order exactly; `jsOrNat` models the
`statusCode || n` fallbacks. -/
def detectErrorType (msg : String) (statusCode : Option Nat) : DetectResult :=
  if hasNetworkPattern msg then
    ⟨.NETWORK_ERROR, 500⟩
  else if hasRateLimitMsgPattern msg ∨ statusCode = some 429 then
    ⟨.RATE_LIMIT_ERROR, 429⟩
  else if hasNotFoundMsgPattern msg ∨ statusCode = some 404 then
    ⟨.NOT_FOUND, 404⟩
  else if hasAccessMsgPattern msg ∨ statusCode = some 401 ∨ statusCode = some 403 then
    ⟨.ACCESS_DENIED, jsOrNat statusCode 403⟩
  else if hasCursorComboPattern msg then
    ⟨.INVALID_CURSOR, 400⟩
  else if hasValidationMsgPattern msg ∨ statusCode = some 400 ∨ statusCode = some 422 then
    ⟨.VALIDATION_ERROR, jsOrNat statusCode 400⟩
  else
    ⟨.UNEXPECTED_ERROR, jsOrNat statusCode 500⟩

/-- The `entityId` field of `ErrorContext`: a string or a string-keyed record. -/
inductive EntityId where
  | str (s : String)
  | record (kvs : List (String × String))
deriving DecidableEq, Repr

/-- `ErrorContext` of src/utils/error-handler.util.ts (the fields used by
`createUserFriendlyErrorMessage`). -/
structure ErrorContext where
  entityType : Option String := none
  entityId : Option EntityId := none
  operation : Option String := none
deriving DecidableEq, Repr

/-- JavaScript truthiness of the optional `entityId` (an object is always
truthy; a string is truthy when non-empty). -/
def jsTruthyEntityId : Option EntityId → Bool
  | none => false
  | some (.str s) => s ≠ ""
  | some (.record _) => true

/-- The `entityIdStr` computed by `createUserFriendlyErrorMessage`: the string
itself, or the record's values joined with `/`; empty when `entityId` is
falsy. -/
def entityIdStr (e : Option EntityId) : String :=
  if jsTruthyEntityId e then
    match e with
    | some (.str s) => s
    | some (.record kvs) => String.intercalate "/" (kvs.map Prod.snd)
    | none => ""
  else ""

/-- The `entity` display name computed by `createUserFriendlyErrorMessage`. -/
def entityDisplay (ctx : ErrorContext) : String :=
  if jsTruthyOptStr ctx.entityType then
    (jsOrStr ctx.entityType "") ++
      (if entityIdStr ctx.entityId ≠ "" then " " ++ entityIdStr ctx.entityId else "")
  else "Resource"

/-- The per-kind base message of the `switch` in
`createUserFriendlyErrorMessage` (before the trailing detail is appended). -/
def baseUserMessage (code : ErrorCode) (ctx : ErrorContext)
    (originalMessage : Option String) : String :=
  let eid := entityIdStr ctx.entityId
  let entity := entityDisplay ctx
  match code with
  | .NOT_FOUND =>
      entity ++ " not found" ++ (if eid ≠ "" then ": " ++ eid else "") ++
      ". Verify the ID is correct and that you have access to this " ++
      jsOrStr (ctx.entityType.map String.toLower) "resource" ++ "."
  | .ACCESS_DENIED =>
      "Access denied for " ++ entity.toLower ++
      (if eid ≠ "" then " " ++ eid else "") ++
      ". Verify your credentials and permissions."
  | .INVALID_CURSOR =>
      "Invalid pagination cursor. Use the exact cursor string returned from previous results."
  | .VALIDATION_ERROR =>
      jsOrStr originalMessage
        ("Invalid data provided for " ++ jsOrStr ctx.operation "operation" ++
         " " ++ entity.toLower ++ ".")
  | .NETWORK_ERROR =>
      "Network error while " ++ jsOrStr ctx.operation "connecting to" ++
      " the service. Please check your internet connection and try again."
  | .RATE_LIMIT_ERROR =>
      "Rate limit exceeded. Please wait a moment and try again, or reduce the frequency of requests."
  | .UNEXPECTED_ERROR =>
      "An unexpected error occurred while " ++ jsOrStr ctx.operation "processing" ++
      " " ++ entity.toLower ++ "."

/-- `createUserFriendlyErrorMessage` of src/utils/error-handler.util.ts:
the switch's base message, plus the original message appended as a trailing
detail when it is truthy and the kind is neither NOT_FOUND nor ACCESS_DENIED. -/
def createUserFriendlyErrorMessage (code : ErrorCode) (ctx : ErrorContext)
    (originalMessage : Option String) : String :=
  let m := baseUserMessage code ctx originalMessage
  if jsTruthyOptStr originalMessage ∧ code ≠ .NOT_FOUND ∧ code ≠ .ACCESS_DENIED then
    m ++ (" Error details: " ++ jsOrStr originalMessage "")
  else m

-- ===========================================================================
-- src/utils/error.util.ts
-- ===========================================================================

/-- The `ErrorType` enum of src/utils/error.util.ts. -/
inductive ErrorType where
  | AUTH_MISSING
  | AUTH_INVALID
  | API_ERROR
  | UNEXPECTED_ERROR
deriving DecidableEq, Repr

/-- `McpError` of src/utils/error.util.ts (the `originalError` payload is not
carried: no claim observes it). -/
structure McpErrorModel where
  message : String
  type : ErrorType
  statusCode : Option Nat
deriving DecidableEq, Repr

/-- `createAuthInvalidError`: an AUTH_INVALID `McpError` with status 401. -/
def createAuthInvalidError (message : String) : McpErrorModel :=
  { message := message, type := .AUTH_INVALID, statusCode := some 401 }

/-- `createApiError`: an API_ERROR `McpError` with the given status. -/
def createApiError (message : String) (statusCode : Option Nat) : McpErrorModel :=
  { message := message, type := .API_ERROR, statusCode := statusCode }

/-- `createUnexpectedError`: an UNEXPECTED_ERROR `McpError` without a status. -/
def createUnexpectedError (message : String) : McpErrorModel :=
  { message := message, type := .UNEXPECTED_ERROR, statusCode := none }

-- ===========================================================================
-- HTTP layer shared by src/api.ts and src/services/vendor.latitude.service.ts
-- ===========================================================================

/-- An upstream HTTP response as both clients observe it: status, the
`content-length` header (absent or a string), and the body text. -/
structure HttpResponse where
  status : Nat
  contentLength : Option String
  body : String
deriving DecidableEq, Repr

/-- `response.ok` of the fetch API: status in the range 200..299. -/
def responseOk (r : HttpResponse) : Bool :=
  200 ≤ r.status && r.status < 300

/-- How one `fetch` call settles: an HTTP response, a rejection named
`AbortError` (only possible when an abort signal was attached), a `TypeError`
(network failure), or any other thrown error. -/
inductive FetchOutcome where
  | response (r : HttpResponse)
  | abortError (msg : String)
  | typeError (msg : String)
  | otherError (msg : String)
deriving DecidableEq, Repr

/-- The `{ name, errorCode, message }` Latitude error payload shape. -/
structure LatitudeError where
  name : String
  errorCode : String
  message : String
deriving DecidableEq, Repr

/-- A JSON parse of an error body is abstracted as a partial function from the
body text to the structured payload (`none` models a parse/validation failure). -/
def ErrorBodyParse : Type := String → Option LatitudeError

-- ===========================================================================
-- src/api.ts: getConfig and request
-- ===========================================================================

/-- `DEFAULT_BASE_URL` of src/api.ts. -/
def DEFAULT_BASE_URL : String := "https://gateway.latitude.so"

/-- `API_TIMEOUT_MS` of src/api.ts. -/
def API_TIMEOUT_MS : Nat := 60000

/-- `config.get(key)` of src/utils/config.util.ts applied to a process
environment: `process.env[key] || undefined`, so an empty string collapses to
`none`. -/
def configGet (env : String → Option String) (key : String) : Option String :=
  match env key with
  | none => none
  | some v => if v = "" then none else some v

/-- `LatitudeConfig` returned by `getConfig` in src/api.ts. -/
structure LatitudeConfig where
  apiKey : String
  projectId : String
  baseUrl : String
deriving DecidableEq, Repr

/-- The two plain (untyped) `Error` throws of `getConfig` in src/api.ts. -/
inductive ApiConfigError where
  | missingApiKey
  | missingProjectId
deriving DecidableEq, Repr

/-- `getConfig` of src/api.ts: reads LATITUDE_API_KEY, LATITUDE_PROJECT_ID and
LATITUDE_BASE_URL from the configuration and throws a plain `Error` (not an
`McpError`) when the key or the project id is falsy. -/
def getConfig (env : String → Option String) : Except ApiConfigError LatitudeConfig :=
  let apiKey := configGet env "LATITUDE_API_KEY"
  let projectId := configGet env "LATITUDE_PROJECT_ID"
  let baseUrl := jsOrStr (configGet env "LATITUDE_BASE_URL") DEFAULT_BASE_URL
  match apiKey with
  | none => .error .missingApiKey
  | some k =>
    match projectId with
    | none => .error .missingProjectId
    | some p => .ok { apiKey := k, projectId := p, baseUrl := baseUrl }

/-- `LatitudeApiError` of src/api.ts. -/
structure LatitudeApiError where
  name : String
  errorCode : String
  message : String
  statusCode : Nat
deriving DecidableEq, Repr

/-- What `request` in src/api.ts does with a settled fetch: throw a
`LatitudeApiError`, return the empty object without touching the body, or hand
the body to `JSON.parse`. -/
inductive RequestResult where
  | emptySuccess
  | jsonParsed (body : String)
  | apiError (e : LatitudeApiError)
deriving DecidableEq, Repr

/-- The response/catch handling of `request` in src/api.ts (lines 93-145),
as a function of the configured timeout, the error-body parse and the fetch
outcome.  Non-ok responses become a `LatitudeApiError` (with a synthetic
payload when the body does not parse); ok responses with `content-length: 0`
or status 204 return the empty object; an `AbortError` becomes the
TimeoutError classification; every other rejection becomes the NetworkError
classification with status 0. -/
def request_handleOutcome (timeout : Option Nat) (parseErr : ErrorBodyParse) :
    FetchOutcome → RequestResult
  | .response r =>
    if responseOk r then
      if r.contentLength = some "0" ∨ r.status = 204 then
        .emptySuccess
      else
        .jsonParsed r.body
    else
      let errorData :=
        match parseErr r.body with
        | some e => e
        | none =>
          { name := "HTTPError"
            errorCode := "HTTP_" ++ toString r.status
            message := jsOrStr (some r.body) ("HTTP " ++ toString r.status) }
      .apiError
        { name := errorData.name, errorCode := errorData.errorCode
          message := errorData.message, statusCode := r.status }
  | .abortError _ =>
      .apiError
        { name := "TimeoutError", errorCode := "TIMEOUT"
          message := "Request timed out after " ++
            toString (jsOrNat timeout API_TIMEOUT_MS / 1000) ++ "s"
          statusCode := 408 }
  | .typeError msg =>
      .apiError
        { name := "NetworkError", errorCode := "NETWORK_ERROR"
          message := msg, statusCode := 0 }
  | .otherError msg =>
      .apiError
        { name := "NetworkError", errorCode := "NETWORK_ERROR"
          message := msg, statusCode := 0 }

/-- Whether `request` in src/api.ts arms a timeout that aborts the in-flight
call: it always does (`setTimeout(() => controller.abort(), options.timeout
|| API_TIMEOUT_MS)` with `signal: controller.signal`). -/
def request_hasAbortTimeout : Bool := true

/-- `request` of src/api.ts end to end, with the network modelled as an oracle
from the url to a fetch outcome; the second component counts outbound HTTP
calls.  Configuration is resolved before any call is issued. -/
def requestRun (env : String → Option String) (endpoint : String)
    (timeout : Option Nat) (net : String → FetchOutcome) (parseErr : ErrorBodyParse) :
    Except ApiConfigError (RequestResult × Nat) :=
  match getConfig env with
  | .error e => .error e
  | .ok c =>
    let url := c.baseUrl ++ "/api/v3" ++ endpoint
    .ok (request_handleOutcome timeout parseErr (net url), 1)

-- ===========================================================================
-- src/services/vendor.latitude.service.ts
-- ===========================================================================

/-- `LATITUDE_BASE_URL` of src/utils/constants.util.ts (that file is not under
src/; the value matches `DEFAULT_BASE_URL` in src/api.ts and the API analysis
document's base URL). -/
def LATITUDE_BASE_URL : String := "https://gateway.latitude.so"

/-- `LATITUDE_API_VERSION` of src/utils/constants.util.ts (not under src/; the
versioned prefix `/api/v3` is documented in the API analysis document and
hardcoded as `v3` in src/api.ts). -/
def LATITUDE_API_VERSION : String := "v3"

/-- The credentials record returned by `getLatitudeCredentials`. -/
structure Credentials where
  apiKey : String
  baseUrl : String
deriving DecidableEq, Repr

/-- `getLatitudeCredentials` of src/services/vendor.latitude.service.ts:
reads LATITUDE_API_KEY and LATITUDE_BASE_URL from the configuration and, when
the key is falsy, throws `createAuthInvalidError` (an AUTH_INVALID `McpError`). -/
def getLatitudeCredentials (env : String → Option String) :
    Except McpErrorModel Credentials :=
  let apiKey := configGet env "LATITUDE_API_KEY"
  let baseUrl := jsOrStr (configGet env "LATITUDE_BASE_URL") LATITUDE_BASE_URL
  match apiKey with
  | none =>
    .error (createAuthInvalidError
      "LATITUDE_API_KEY is required. Set it in your environment or .env file.")
  | some k => .ok { apiKey := k, baseUrl := baseUrl }

/-- The `RequestInit` that `fetchLatitudeApi` builds (lines 74-83): method,
headers, serialized body — and no `signal` field, so no abort/timeout is ever
attached to the fetch. -/
structure ServiceRequestInit where
  method : String
  authorization : String
  body : Option String
  hasAbortSignal : Bool
deriving DecidableEq, Repr

/-- The request construction of `fetchLatitudeApi`: `options.method || 'GET'`,
bearer authorization, optional serialized body, and no abort signal. -/
def fetchLatitudeApi_requestInit (apiKey : String) (method : Option String)
    (body : Option String) : ServiceRequestInit :=
  { method := jsOrStr method "GET"
    authorization := "Bearer " ++ apiKey
    body := body
    hasAbortSignal := false }

/-- What `fetchLatitudeApi` produces from a settled fetch: throw an
`McpError`, return the empty object without touching the body, or hand the
body to `JSON.parse`. -/
inductive ServiceResult where
  | emptySuccess
  | jsonParsed (body : String)
  | mcpError (e : McpErrorModel)
deriving DecidableEq, Repr

/-- The response/catch handling of `fetchLatitudeApi` (lines 88-166): non-ok
responses branch on the status (401/403 → `createAuthInvalidError`, which
always carries status 401; 404, 422 and everything else → `createApiError`
with the response status); ok responses with `content-length: 0` or status
204 return the empty object; a `TypeError` becomes a network `createApiError`
without a status; any other rejection becomes `createUnexpectedError`. -/
def fetchLatitudeApi_handleOutcome (parseErr : ErrorBodyParse) :
    FetchOutcome → ServiceResult
  | .response r =>
    if responseOk r then
      if r.contentLength = some "0" ∨ r.status = 204 then
        .emptySuccess
      else
        .jsonParsed r.body
    else
      let em := (parseErr r.body).map LatitudeError.message
      if r.status = 401 then
        .mcpError (createAuthInvalidError
          (jsOrStr em "Authentication failed. Check your LATITUDE_API_KEY."))
      else if r.status = 403 then
        .mcpError (createAuthInvalidError
          (jsOrStr em "Permission denied for the requested resource."))
      else if r.status = 404 then
        .mcpError (createApiError (jsOrStr em "Resource not found.") (some 404))
      else if r.status = 422 then
        .mcpError (createApiError (jsOrStr em "Validation error.") (some 422))
      else
        .mcpError (createApiError
          (jsOrStr em ("API request failed with status " ++ toString r.status))
          (some r.status))
  | .abortError msg =>
      .mcpError (createUnexpectedError ("Unexpected error during API call: " ++ msg))
  | .typeError msg =>
      .mcpError (createApiError ("Network error during API call: " ++ msg) none)
  | .otherError msg =>
      .mcpError (createUnexpectedError ("Unexpected error during API call: " ++ msg))

/-- `fetchLatitudeApi` end to end: credentials are resolved first (line 71),
and only on success is the url built and the network touched.  The network is
an oracle from the url to a fetch outcome; the second component counts
outbound HTTP calls. -/
def fetchLatitudeApiRun (env : String → Option String) (endpoint : String)
    (method : Option String) (body : Option String)
    (net : String → FetchOutcome) (parseErr : ErrorBodyParse) :
    ServiceResult × Nat :=
  match getLatitudeCredentials env with
  | .error e => (.mcpError e, 0)
  | .ok c =>
    let url := c.baseUrl ++ "/api/" ++ LATITUDE_API_VERSION ++ endpoint
    let _init := fetchLatitudeApi_requestInit c.apiKey method body
    (fetchLatitudeApi_handleOutcome parseErr (net url), 1)

-- ===========================================================================
-- src/utils/config.util.ts: ConfigLoader
-- ===========================================================================

/-- A process environment, as an association list (later entries are only
reachable when no earlier entry has the key, matching object-key uniqueness). -/
abbrev EnvMap : Type := List (String × String)

/-- Lookup in a process environment. -/
def envLookup (e : EnvMap) (k : String) : Option String :=
  (List.find? (fun p => p.1 == k) e).map Prod.snd

/-- Set `process.env[k] = v` only when the key is currently undefined — the
behaviour of the global-config loop (`if (process.env[key] === undefined)`)
and of dotenv's default non-override policy. -/
def setIfUndefined (e : EnvMap) (k v : String) : EnvMap :=
  if (envLookup e k).isSome then e else e ++ [(k, v)]

/-- Apply a whole source, key by key, without overwriting existing keys. -/
def applySourceIfUndefined (e : EnvMap) (src : List (String × String)) : EnvMap :=
  List.foldl (fun acc kv => setIfUndefined acc kv.1 kv.2) e src

/-- The observable state of the `ConfigLoader` singleton: the process
environment, the `configLoaded` guard, and a counter of file-source reads
(the .env file and the global config file). -/
structure ConfigLoaderState where
  env : EnvMap
  configLoaded : Bool
  sourceReads : Nat
deriving Repr

/-- `ConfigLoader.load` of src/utils/config.util.ts: a no-op when
`configLoaded` is already set; otherwise it reads and applies the global
config file FIRST (`loadFromGlobalConfig`, line 39), then the .env file
(`loadFromEnvFile`, line 42) — each setting only keys that are still
undefined — and finally sets the guard.  `globalCfg` is the `environments`
record found in $HOME/.mcp/configs.json and `envFile` the parsed .env file. -/
def ConfigLoader_load (globalCfg envFile : List (String × String))
    (s : ConfigLoaderState) : ConfigLoaderState :=
  if s.configLoaded then s
  else
    let e1 := applySourceIfUndefined s.env globalCfg
    let e2 := applySourceIfUndefined e1 envFile
    { env := e2, configLoaded := true, sourceReads := s.sourceReads + 2 }

-- ===========================================================================
-- src/api.ts: getPromptNames
-- ===========================================================================

/-- A Latitude document, restricted to the fields `getPromptNames` touches. -/
structure Document where
  path : String
  versionUuid : String
deriving DecidableEq, Repr

/-- `getPromptNames` of src/api.ts: over the outcome of
`listDocuments('live')`, any thrown error (of any type ε) is swallowed into
the empty list, and a success is mapped to the documents' `path` fields. -/
def getPromptNames {ε : Type} (listOutcome : Except ε (List Document)) : List String :=
  match listOutcome with
  | .error _ => []
  | .ok docs => docs.map Document.path

-- ===========================================================================
-- The spec's error taxonomy (claim-side definitions, for comparison with the
-- source's enums)
-- ===========================================================================

/-- The specification's error-kind taxonomy (spec §3, §7).  This is a
claim-side vocabulary used to state what the spec predicts, to be compared
with the source's `ErrorCode` and `ErrorType` enums. -/
inductive SpecErrorKind where
  | NetworkError
  | TimeoutError
  | AuthMissing
  | AuthInvalid
  | NotFound
  | ValidationError
  | RateLimited
  | ServerError
  | UnexpectedError
deriving DecidableEq, Repr

/-- The spec-taxonomy reading of each source `ErrorCode` (the spec names the
code's ACCESS_DENIED "AuthInvalid", cf. its §7 taxonomy and the C8 sentence;
INVALID_CURSOR is a validation failure).  No `ErrorCode` reads as
ServerError or TimeoutError: the source enum has no such members. -/
def errorCodeSpecKind : ErrorCode → SpecErrorKind
  | .NOT_FOUND => .NotFound
  | .INVALID_CURSOR => .ValidationError
  | .ACCESS_DENIED => .AuthInvalid
  | .VALIDATION_ERROR => .ValidationError
  | .UNEXPECTED_ERROR => .UnexpectedError
  | .NETWORK_ERROR => .NetworkError
  | .RATE_LIMIT_ERROR => .RateLimited

/-- Claim-side: the kind C1 says the classifier assigns from the status code
alone. -/
def spec_C1_claimedKind (s : Nat) : SpecErrorKind :=
  if s = 401 ∨ s = 403 then .AuthInvalid
  else if s = 404 then .NotFound
  else if s = 400 ∨ s = 422 then .ValidationError
  else if s = 429 then .RateLimited
  else if s = 502 ∨ s = 503 ∨ s = 504 then .ServerError
  else .UnexpectedError

/-- The kind determined by a status code that the taxonomy maps, expressed in
the source's `ErrorCode` enum (the table of C1's status clauses that the
classifier inspects: 401/403, 404, 400/422, 429). -/
def taxonomyStatusKind (s : Nat) : Option ErrorCode :=
  if s = 401 ∨ s = 403 then some .ACCESS_DENIED
  else if s = 404 then some .NOT_FOUND
  else if s = 400 ∨ s = 422 then some .VALIDATION_ERROR
  else if s = 429 then some .RATE_LIMIT_ERROR
  else none

/-- True when the message matches no substring pattern of a `detectErrorType`
branch checked strictly before the branch that inspects status `s`.  This is
the exact condition under which the status code can still decide the kind. -/
def noEarlierPatternFor (s : Nat) (m : String) : Bool :=
  if s = 429 then
    !hasNetworkPattern m
  else if s = 404 then
    !(hasNetworkPattern m || hasRateLimitMsgPattern m)
  else if s = 401 ∨ s = 403 then
    !(hasNetworkPattern m || hasRateLimitMsgPattern m || hasNotFoundMsgPattern m)
  else
    !(hasNetworkPattern m || hasRateLimitMsgPattern m || hasNotFoundMsgPattern m ||
      hasAccessMsgPattern m || hasCursorComboPattern m)

-- ===========================================================================
-- Retry/Backoff policy (spec §4.4) — absent from src/
-- ===========================================================================

/-- Modelled from the spec: src/ contains no retry implementation (the audit
lists "no retry logic" as a missing behaviour, and spec §4.4 specifies the
intended `withRetry`).  One attempt's outcome: a success value or a failure
classified into the spec taxonomy. -/
inductive RetryOutcome (α : Type) where
  | success (v : α)
  | failure (k : SpecErrorKind)
deriving DecidableEq, Repr

/-- Modelled from the spec: the retryable kinds of spec §4.4's policy
(`{RateLimited, ServerError, TimeoutError}`). -/
def isRetryable (k : SpecErrorKind) : Bool :=
  match k with
  | .RateLimited => true
  | .ServerError => true
  | .TimeoutError => true
  | _ => false

/-- Modelled from the spec: the §4.4 backoff delay before retry number
`attempt`, `min(baseDelay * 2^(attempt-1), maxDelay)` with baseDelay 200ms
and maxDelay 8000ms (jitter is a uniform perturbation of this value and does
not affect which attempts run). -/
def backoffDelay (attempt : Nat) : Nat :=
  min (200 * 2 ^ (attempt - 1)) 8000

/-- Modelled from the spec: run attempt number `attempt` with `rest` further
attempts allowed after it.  A success returns immediately; a non-retryable
failure fails immediately; a retryable failure retries while budget remains
and otherwise surfaces the last classified error unchanged.  Returns the
final outcome and the index of the last attempt executed. -/
def withRetryFrom {α : Type} (op : Nat → RetryOutcome α) (attempt : Nat) :
    Nat → RetryOutcome α × Nat
  | 0 => (op attempt, attempt)
  | n + 1 =>
    match op attempt with
    | .success v => (.success v, attempt)
    | .failure k =>
      if isRetryable k then withRetryFrom op (attempt + 1) n
      else (.failure k, attempt)

/-- Modelled from the spec: `withRetry(operation, policy)` of §4.4 with
`maxAttempts` total attempts (the policy's default is 3). -/
def withRetry {α : Type} (op : Nat → RetryOutcome α) (maxAttempts : Nat) :
    RetryOutcome α × Nat :=
  withRetryFrom op 1 (maxAttempts - 1)

-- ===========================================================================
-- Concrete inputs used by witnesses and counterexamples
-- ===========================================================================

/-- A process environment whose LATITUDE_API_KEY is set to the empty string
and which has no other configuration. -/
def emptyKeyEnv : String → Option String :=
  fun k => if k = "LATITUDE_API_KEY" then some "" else none

/-- A deterministic operation that fails with ServerError on the first
attempt and succeeds on every later one. -/
def c3SampleOp : Nat → RetryOutcome Nat :=
  fun i => if i = 1 then .failure .ServerError else .success 42

-- ===========================================================================
-- Theorems
-- ===========================================================================

/-- C1 (counterexample): the claim says a failed response with status 502 and
a pattern-free message classifies as ServerError; on the code, `detectErrorType`
with the pattern-free message "" and status 502 yields UNEXPECTED_ERROR (the
`ErrorCode` enum has no ServerError member), which reads as UnexpectedError in
the spec taxonomy, not ServerError. -/
theorem C1_counterexample :
    matchesNoPattern "" = true ∧
    spec_C1_claimedKind 502 = SpecErrorKind.ServerError ∧
    detectErrorType "" (some 502) = ⟨.UNEXPECTED_ERROR, 502⟩ ∧
    errorCodeSpecKind ErrorCode.UNEXPECTED_ERROR ≠ SpecErrorKind.ServerError := by
  decide

/-- C1 (amended): for every failed response whose error message matches no
message-substring pattern, `detectErrorType` assigns the kind determined by
the status code alone: 401 and 403 yield ACCESS_DENIED (the code's name for
AuthInvalid), 404 yields NOT_FOUND, 400 and 422 yield VALIDATION_ERROR, 429
yields RATE_LIMIT_ERROR, and every other non-success status — including 502,
503 and 504, since the enum has no ServerError — yields UNEXPECTED_ERROR
carrying the original status code. -/
theorem C1_status_determines_kind (msg : String) (s : Nat)
    (hpat : matchesNoPattern msg = true) (hs : s ≠ 0) :
    (s = 401 → detectErrorType msg (some s) = ⟨.ACCESS_DENIED, 401⟩) ∧
    (s = 403 → detectErrorType msg (some s) = ⟨.ACCESS_DENIED, 403⟩) ∧
    (s = 404 → detectErrorType msg (some s) = ⟨.NOT_FOUND, 404⟩) ∧
    (s = 400 → detectErrorType msg (some s) = ⟨.VALIDATION_ERROR, 400⟩) ∧
    (s = 422 → detectErrorType msg (some s) = ⟨.VALIDATION_ERROR, 422⟩) ∧
    (s = 429 → detectErrorType msg (some s) = ⟨.RATE_LIMIT_ERROR, 429⟩) ∧
    (s ≠ 401 → s ≠ 403 → s ≠ 404 → s ≠ 400 → s ≠ 422 → s ≠ 429 →
      detectErrorType msg (some s) = ⟨.UNEXPECTED_ERROR, s⟩) := by
  simp only [matchesNoPattern, Bool.not_eq_true', Bool.or_eq_false_iff] at hpat
  obtain ⟨⟨⟨⟨⟨h1, h2⟩, h3⟩, h4⟩, h5⟩, h6⟩ := hpat
  refine ⟨?_, ?_, ?_, ?_, ?_, ?_, ?_⟩
  · rintro rfl; simp [detectErrorType, h1, h2, h3, h4, h5, h6, jsOrNat]
  · rintro rfl; simp [detectErrorType, h1, h2, h3, h4, h5, h6, jsOrNat]
  · rintro rfl; simp [detectErrorType, h1, h2, h3, h4, h5, h6, jsOrNat]
  · rintro rfl; simp [detectErrorType, h1, h2, h3, h4, h5, h6, jsOrNat]
  · rintro rfl; simp [detectErrorType, h1, h2, h3, h4, h5, h6, jsOrNat]
  · rintro rfl; simp [detectErrorType, h1, h2, h3, h4, h5, h6, jsOrNat]
  · intro n1 n2 n3 n4 n5 n6
    simp [detectErrorType, h1, h2, h3, h4, h5, h6, jsOrNat, n1, n2, n3, n4, n5, n6, hs]

/-- C1 (witness): the amended table applied to the pattern-free message ""
and the unlisted status 500. -/
theorem C1_status_determines_kind_witness :
    detectErrorType "" (some 500) = ⟨.UNEXPECTED_ERROR, 500⟩ :=
  (C1_status_determines_kind "" 500 (by decide) (by decide)).2.2.2.2.2.2
    (by decide) (by decide) (by decide) (by decide) (by decide) (by decide)

/-- C7 (counterexample): the claim says a status code mapped by the taxonomy
determines the kind regardless of message substrings; on the code, the status
401 determines ACCESS_DENIED, yet `detectErrorType` on the message
"not found" with status 401 returns NOT_FOUND — the earlier-checked message
pattern wins over the status code. -/
theorem C7_counterexample :
    taxonomyStatusKind 401 = some ErrorCode.ACCESS_DENIED ∧
    (detectErrorType "not found" (some 401)).code = ErrorCode.NOT_FOUND ∧
    ErrorCode.NOT_FOUND ≠ ErrorCode.ACCESS_DENIED := by
  decide

/-- C7 (amended): `detectErrorType` checks its categories in a fixed order
(network, rate-limit, not-found, access, cursor, validation), so a message
substring from an earlier category overrides a later status code; a mapped
status code determines the kind exactly when the message matches no substring
pattern of a strictly earlier branch. -/
theorem C7_status_precedence (s : Nat) (m : String)
    (hmap : (taxonomyStatusKind s).isSome = true)
    (hpat : noEarlierPatternFor s m = true) :
    some (detectErrorType m (some s)).code = taxonomyStatusKind s := by
  unfold taxonomyStatusKind at hmap ⊢
  split_ifs at hmap ⊢ with h1 h2 h3 h4
  · rcases h1 with rfl | rfl <;>
      simp only [noEarlierPatternFor, if_true, if_false] at hpat <;>
      simp_all [detectErrorType, noEarlierPatternFor, Bool.or_eq_false_iff]
  · subst h2
    simp only [noEarlierPatternFor] at hpat
    simp_all [detectErrorType, Bool.or_eq_false_iff]
  · rcases h3 with rfl | rfl <;>
      simp only [noEarlierPatternFor] at hpat <;>
      simp_all [detectErrorType, Bool.or_eq_false_iff]
  · subst h4
    simp only [noEarlierPatternFor] at hpat
    simp_all [detectErrorType, Bool.or_eq_false_iff]
  · simp at hmap

/-- C7 (witness): status 429 with a message that does contain a rate-limit
substring but no pattern of an earlier branch still classifies by status. -/
theorem C7_status_precedence_witness :
    some (detectErrorType "too many requests" (some 429)).code =
      taxonomyStatusKind 429 :=
  C7_status_precedence 429 "too many requests" (by decide) (by decide)

/-- C8: for NOT_FOUND and ACCESS_DENIED the rendered user-facing message is
independent of the original error message (two renderings that differ only in
the original message coincide), while for every other kind a non-empty
original message is appended as the trailing " Error details: ..." suffix. -/
theorem C8_render_leak_policy :
    (∀ (ctx : ErrorContext) (m₁ m₂ : Option String),
      createUserFriendlyErrorMessage .NOT_FOUND ctx m₁ =
        createUserFriendlyErrorMessage .NOT_FOUND ctx m₂ ∧
      createUserFriendlyErrorMessage .ACCESS_DENIED ctx m₁ =
        createUserFriendlyErrorMessage .ACCESS_DENIED ctx m₂) ∧
    (∀ code : ErrorCode, code ≠ .NOT_FOUND → code ≠ .ACCESS_DENIED →
      ∀ (ctx : ErrorContext) (m : String), m ≠ "" →
      ∃ p, createUserFriendlyErrorMessage code ctx (some m) =
        p ++ (" Error details: " ++ m)) := by
  constructor
  · intro ctx m₁ m₂
    constructor <;> simp [createUserFriendlyErrorMessage, baseUserMessage]
  · intro code h1 h2 ctx m hm
    refine ⟨baseUserMessage code ctx (some m), ?_⟩
    simp [createUserFriendlyErrorMessage, jsTruthyOptStr, jsOrStr, hm, h1, h2]

/-- C8 (witness): two NOT_FOUND renderings differing only in the original
message coincide, and a RATE_LIMIT_ERROR rendering carries its original
message as the trailing detail. -/
theorem C8_render_leak_policy_witness :
    createUserFriendlyErrorMessage .NOT_FOUND {} (some "row 17 is private") =
      createUserFriendlyErrorMessage .NOT_FOUND {} (some "no such row") ∧
    ∃ p, createUserFriendlyErrorMessage .RATE_LIMIT_ERROR {} (some "slow down") =
      p ++ (" Error details: " ++ "slow down") :=
  ⟨(C8_render_leak_policy.1 {} (some "row 17 is private") (some "no such row")).1,
   C8_render_leak_policy.2 .RATE_LIMIT_ERROR (by decide) (by decide) {}
     "slow down" (by decide)⟩

/-- C9: for every successful HTTP response whose content-length header equals
"0" or whose status is 204, both request executors return the empty object as
a valid success and never hand the body to the JSON parser. -/
theorem C9_empty_body_success (timeout : Option Nat) (pe₁ pe₂ : ErrorBodyParse)
    (r : HttpResponse) (hok : responseOk r = true)
    (hempty : r.contentLength = some "0" ∨ r.status = 204) :
    request_handleOutcome timeout pe₁ (.response r) = .emptySuccess ∧
    fetchLatitudeApi_handleOutcome pe₂ (.response r) = .emptySuccess := by
  constructor
  · simp [request_handleOutcome, hok, hempty]
  · simp [fetchLatitudeApi_handleOutcome, hok, hempty]

/-- C9 (witness): a 204 response with no content-length header and an empty
body parses to the empty success in both executors. -/
theorem C9_empty_body_success_witness :
    request_handleOutcome none (fun _ => none) (.response ⟨204, none, ""⟩) =
      .emptySuccess ∧
    fetchLatitudeApi_handleOutcome (fun _ => none) (.response ⟨204, none, ""⟩) =
      .emptySuccess :=
  C9_empty_body_success none (fun _ => none) (fun _ => none) ⟨204, none, ""⟩
    (by decide) (Or.inr rfl)

/-- C2 (code evaluation at the failing input): the vendor-service executor
builds its RequestInit with no abort signal — nothing ever cancels one of its
in-flight requests, so a hung upstream leaves the call pending indefinitely —
while the api.ts executor does arm an abort timeout and classifies the
resulting AbortError as the TimeoutError error (code TIMEOUT, status 408,
default 60s). -/
theorem C2_timeout_divergence :
    (fetchLatitudeApi_requestInit "key" none none).hasAbortSignal = false ∧
    request_hasAbortTimeout = true ∧
    request_handleOutcome none (fun _ => none)
        (.abortError "This operation was aborted") =
      .apiError ⟨"TimeoutError", "TIMEOUT", "Request timed out after 60s", 408⟩ := by
  refine ⟨rfl, rfl, by decide⟩

/-- C3 (modelled from the spec, §4.4): under `withRetry` with maxAttempts 3,
a run of ServerError failures followed by one success within the budget
returns that success; three consecutive ServerError failures surface the last
classified error unchanged after exactly 3 attempts; and an AuthInvalid
failure on the first attempt is surfaced at once, never retried, whatever the
attempt budget. -/
theorem C3_retry_policy {α : Type} (op : Nat → RetryOutcome α) (v : α) :
    (∀ n, n < 3 →
      (∀ i, 1 ≤ i → i ≤ n → op i = .failure .ServerError) →
      op (n + 1) = .success v →
      withRetry op 3 = (.success v, n + 1)) ∧
    ((∀ i, 1 ≤ i → i ≤ 3 → op i = .failure .ServerError) →
      withRetry op 3 = (.failure .ServerError, 3)) ∧
    (∀ maxAttempts, 1 ≤ maxAttempts → op 1 = .failure .AuthInvalid →
      withRetry op maxAttempts = (.failure .AuthInvalid, 1)) := by
  refine ⟨?_, ?_, ?_⟩
  · intro n hn hfail hsucc
    interval_cases n
    · simp [withRetry, withRetryFrom, hsucc]
    · have f1 := hfail 1 (by norm_num) (by norm_num)
      simp [withRetry, withRetryFrom, f1, hsucc, isRetryable]
    · have f1 := hfail 1 (by norm_num) (by norm_num)
      have f2 := hfail 2 (by norm_num) (by norm_num)
      simp [withRetry, withRetryFrom, f1, f2, hsucc, isRetryable]
  · intro hfail
    have f1 := hfail 1 (by norm_num) (by norm_num)
    have f2 := hfail 2 (by norm_num) (by norm_num)
    have f3 := hfail 3 (by norm_num) (by norm_num)
    simp [withRetry, withRetryFrom, f1, f2, f3, isRetryable]
  · intro maxAttempts hm h1
    obtain ⟨m, rfl⟩ := Nat.exists_eq_add_of_le hm
    cases m with
    | zero => simp [withRetry, withRetryFrom, h1]
    | succ k => simp [withRetry, withRetryFrom, h1, isRetryable, Nat.add_sub_cancel_left]

/-- C3 (witness): one ServerError then a success returns the success on the
second attempt. -/
theorem C3_retry_policy_witness : withRetry c3SampleOp 3 = (.success 42, 2) :=
  (C3_retry_policy c3SampleOp 42).1 1 (by norm_num)
    (fun i h1 h2 => by
      have hi : i = 1 := le_antisymm h2 h1
      subst hi; rfl)
    (by rfl)

/-- C4 (counterexample): with LATITUDE_API_KEY resolved to the empty string,
the vendor service fails before any network call — but with an error of kind
AUTH_INVALID (the service calls `createAuthInvalidError`), not AUTH_MISSING
as the claim states, even though `createAuthMissingError` exists for exactly
this case. -/
theorem C4_counterexample :
    (fetchLatitudeApiRun emptyKeyEnv "/projects" none none
        (fun _ => .otherError "unreachable") (fun _ => none)).1 =
      .mcpError (createAuthInvalidError
        "LATITUDE_API_KEY is required. Set it in your environment or .env file.") ∧
    ErrorType.AUTH_INVALID ≠ ErrorType.AUTH_MISSING := by
  exact ⟨rfl, by decide⟩

/-- C4 (amended): whenever the required API key is absent or empty after
resolution, every vendor-service operation fails with an error of kind
AuthInvalid (AUTH_INVALID) — not AuthMissing — and the failure happens before
any outbound request: zero HTTP calls are issued whatever the network would
answer.  The api.ts client likewise fails before any network call, with a
plain untyped Error. -/
theorem C4_missing_key_fails_before_network (env : String → Option String)
    (h : configGet env "LATITUDE_API_KEY" = none)
    (endpoint : String) (method body : Option String)
    (net : String → FetchOutcome) (parseErr : ErrorBodyParse) :
    (fetchLatitudeApiRun env endpoint method body net parseErr).2 = 0 ∧
    (fetchLatitudeApiRun env endpoint method body net parseErr).1 =
      .mcpError (createAuthInvalidError
        "LATITUDE_API_KEY is required. Set it in your environment or .env file.") ∧
    getConfig env = .error ApiConfigError.missingApiKey := by
  refine ⟨?_, ?_, ?_⟩ <;>
    simp [fetchLatitudeApiRun, getLatitudeCredentials, getConfig, h]

/-- C4 (witness): the empty-string key environment issues zero HTTP calls and
yields the AUTH_INVALID error in the service, and the plain missing-key Error
in api.ts. -/
theorem C4_missing_key_fails_before_network_witness :
    (fetchLatitudeApiRun emptyKeyEnv "/projects" none none
        (fun _ => .otherError "unreachable") (fun _ => none)).2 = 0 ∧
    (fetchLatitudeApiRun emptyKeyEnv "/projects" none none
        (fun _ => .otherError "unreachable") (fun _ => none)).1 =
      .mcpError (createAuthInvalidError
        "LATITUDE_API_KEY is required. Set it in your environment or .env file.") ∧
    getConfig emptyKeyEnv = .error ApiConfigError.missingApiKey :=
  C4_missing_key_fails_before_network emptyKeyEnv (by rfl) "/projects" none none
    (fun _ => .otherError "unreachable") (fun _ => none)

/-- C5 (code evaluation at the failing input): a key present in both the .env
file and the global config file, and absent from the process environment,
resolves to the global config's value — `ConfigLoader.load` applies the
global config first and dotenv never overwrites an existing key — although
the loader's own doc comment and the claim give the .env file the higher
priority. -/
theorem C5_global_config_beats_env_file :
    envLookup (ConfigLoader_load
        [("LATITUDE_API_KEY", "from-global-config")]
        [("LATITUDE_API_KEY", "from-dotenv-file")]
        { env := [], configLoaded := false, sourceReads := 0 }).env
      "LATITUDE_API_KEY" = some "from-global-config" := by
  decide

/-- C6: `ConfigLoader.load` is idempotent — the `configLoaded` guard makes a
second call in the same process a no-op: the whole observable state, the
configuration values and the file-source read counter included, is unchanged. -/
theorem C6_load_idempotent (globalCfg envFile : List (String × String))
    (s : ConfigLoaderState) :
    ConfigLoader_load globalCfg envFile (ConfigLoader_load globalCfg envFile s) =
      ConfigLoader_load globalCfg envFile s := by
  by_cases h : s.configLoaded <;> simp [ConfigLoader_load, h]

/-- C10: `getPromptNames` never propagates a failure — every thrown error of
the underlying `listDocuments('live')` yields the empty list, and a success
yields exactly the `path` field of each document, in order. -/
theorem C10_getPromptNames_never_fails {ε : Type} :
    (∀ e : ε, getPromptNames (Except.error e : Except ε (List Document)) = []) ∧
    (∀ docs : List Document,
      getPromptNames (Except.ok docs : Except ε (List Document)) =
        docs.map Document.path) :=
  ⟨fun _ => rfl, fun _ => rfl⟩

end LatitudeMcp
